/-
Verification of the PixarLamp articulated-lamp program (src/main.cpp and the
earlier revision quoted in src/README.md).

The embedding follows the source:
  * `LampJoints`, `JointSelection`, the initial `lampJoints` value, and the
    keyboard handlers `keyboard` / `specialKeys` model the global state and
    the two GLUT input callbacks.  C `float` values are modelled as exact
    rationals (every IEEE float is a rational, and all arithmetic performed
    by the handlers — adding/subtracting 3.0 and fmin/fmax clamping on values
    of this magnitude — is exact in IEEE single precision).
  * The OpenGL matrix calls of `setupLighting`, `display` and `drawLampshade`
    are modelled over ℝ: `glRotatef`/`glTranslatef` post-multiply the current
    modelview matrix (column-vector convention, column-major storage, so
    `modelview[12..14]` is the fourth column and `modelview[8..10]` the third
    column of the 4×4 matrix).
  * The procedural geometry (`drawCylinder`, `drawCone`, `drawSphere`,
    `drawWireCube`) is modelled as the list of vertices emitted between
    `glBegin`/`glEnd`; the division in `drawCone`'s normal computation is
    modelled fallibly (`Option`), `none` standing for the IEEE 0/0 = NaN case.
-/
import Mathlib

set_option maxHeartbeats 1000000

namespace PixarLamp

/-! ## Data model (src/main.cpp lines 26-61) -/

/-- `enum JointSelection` from main.cpp. -/
inductive JointSelection
  | BASE
  | LOWER_ARM
  | UPPER_ARM
  | LAMPSHADE
deriving DecidableEq

/-- `struct LampJoints` from main.cpp, polymorphic in the scalar type so the
exact-rational state machine and the real-valued kinematic chain share it. -/
structure LampJoints (α : Type) where
  baseRotation : α
  lowerArmAngle : α
  upperArmAngle : α
  lampshadeAngle : α
  lampshadeRotation : α
deriving DecidableEq

/-- Initial configuration `LampJoints lampJoints = {0.0f, 30.0f, -60.0f, -90.0f, 0.0f}`
(main.cpp line 45); also the pose restored by the `r` key. -/
def defaultLampJoints : LampJoints ℚ := ⟨0, 30, -60, -90, 0⟩

/-- The three globals mutated by the input callbacks:
`lampJoints`, `selectedJoint`, `spotlightEnabled`. -/
structure LampState where
  lampJoints : LampJoints ℚ
  selectedJoint : JointSelection
  spotlightEnabled : Bool
deriving DecidableEq

/-- Program start: `lampJoints` as line 45, `selectedJoint = BASE` (line 46),
`spotlightEnabled = true` (line 47). -/
def initialState : LampState :=
  { lampJoints := defaultLampJoints
    selectedJoint := .BASE
    spotlightEnabled := true }

/-! ## Input events and handlers (main.cpp lines 755-868) -/

/-- Keys handled by the `keyboard` callback (ESC terminates the process and is
not a state transition). -/
inductive KeyboardKey
  | key1
  | key2
  | key3
  | key4
  | keyF
  | keyR
deriving DecidableEq

/-- Arrow keys handled by the `specialKeys` callback. -/
inductive SpecialKey
  | left
  | right
  | up
  | down
deriving DecidableEq

/-- The `keyboard` callback (main.cpp lines 755-795): joint selection,
spotlight toggle, reset to the default pose. -/
def keyboard (key : KeyboardKey) (s : LampState) : LampState :=
  match key with
  | .key1 => { s with selectedJoint := .BASE }
  | .key2 => { s with selectedJoint := .LOWER_ARM }
  | .key3 => { s with selectedJoint := .UPPER_ARM }
  | .key4 => { s with selectedJoint := .LAMPSHADE }
  | .keyF => { s with spotlightEnabled := !s.spotlightEnabled }
  | .keyR => { s with lampJoints := defaultLampJoints }

/-- `rotationStep` (main.cpp line 805). -/
def rotationStep : ℚ := 3

/-- The `specialKeys` callback (main.cpp lines 803-868): left/right act on the
base and lampshade Y-rotations (unclamped), up/down act on the three tilt
angles with `fmin`/`fmax` clamping. -/
def specialKeys (key : SpecialKey) (s : LampState) : LampState :=
  match key with
  | .left =>
    match s.selectedJoint with
    | .BASE =>
        { s with lampJoints :=
            { s.lampJoints with baseRotation := s.lampJoints.baseRotation - rotationStep } }
    | .LAMPSHADE =>
        { s with lampJoints :=
            { s.lampJoints with
                lampshadeRotation := s.lampJoints.lampshadeRotation - rotationStep } }
    | _ => s
  | .right =>
    match s.selectedJoint with
    | .BASE =>
        { s with lampJoints :=
            { s.lampJoints with baseRotation := s.lampJoints.baseRotation + rotationStep } }
    | .LAMPSHADE =>
        { s with lampJoints :=
            { s.lampJoints with
                lampshadeRotation := s.lampJoints.lampshadeRotation + rotationStep } }
    | _ => s
  | .up =>
    match s.selectedJoint with
    | .LOWER_ARM =>
        { s with lampJoints :=
            { s.lampJoints with
                lowerArmAngle := min (s.lampJoints.lowerArmAngle + rotationStep) 90 } }
    | .UPPER_ARM =>
        { s with lampJoints :=
            { s.lampJoints with
                upperArmAngle := min (s.lampJoints.upperArmAngle + rotationStep) 90 } }
    | .LAMPSHADE =>
        { s with lampJoints :=
            { s.lampJoints with
                lampshadeAngle := min (s.lampJoints.lampshadeAngle + rotationStep) 45 } }
    | _ => s
  | .down =>
    match s.selectedJoint with
    | .LOWER_ARM =>
        { s with lampJoints :=
            { s.lampJoints with
                lowerArmAngle := max (s.lampJoints.lowerArmAngle - rotationStep) (-10) } }
    | .UPPER_ARM =>
        { s with lampJoints :=
            { s.lampJoints with
                upperArmAngle := max (s.lampJoints.upperArmAngle - rotationStep) (-120) } }
    | .LAMPSHADE =>
        { s with lampJoints :=
            { s.lampJoints with
                lampshadeAngle := max (s.lampJoints.lampshadeAngle - rotationStep) (-90) } }
    | _ => s

/-- One keyboard input event, dispatched to the callback GLUT would invoke. -/
inductive InputEvent
  | kb (key : KeyboardKey)
  | special (key : SpecialKey)
deriving DecidableEq

/-- Apply one input event to the program state. -/
def step (s : LampState) (e : InputEvent) : LampState :=
  match e with
  | .kb key => keyboard key s
  | .special key => specialKeys key s

/-- Run a finite sequence of input events from a state. -/
def run (s : LampState) (events : List InputEvent) : LampState :=
  events.foldl step s

/-- The declared ranges of the three clamped tilt angles (spec §3). -/
def clampedAnglesInRange (j : LampJoints ℚ) : Prop :=
  -10 ≤ j.lowerArmAngle ∧ j.lowerArmAngle ≤ 90 ∧
  -120 ≤ j.upperArmAngle ∧ j.upperArmAngle ≤ 90 ∧
  -90 ≤ j.lampshadeAngle ∧ j.lampshadeAngle ≤ 45

lemma keyboard_preserves_range (key : KeyboardKey) (s : LampState)
    (h : clampedAnglesInRange s.lampJoints) :
    clampedAnglesInRange (keyboard key s).lampJoints := by
  cases key <;>
    simp only [keyboard, clampedAnglesInRange, defaultLampJoints] at h ⊢ <;>
    first
      | exact h
      | norm_num

lemma specialKeys_preserves_range (key : SpecialKey) (s : LampState)
    (h : clampedAnglesInRange s.lampJoints) :
    clampedAnglesInRange (specialKeys key s).lampJoints := by
  rcases s with ⟨⟨b, la, ua, sa, sr⟩, sel, sp⟩
  simp only [clampedAnglesInRange] at h
  obtain ⟨h1, h2, h3, h4, h5, h6⟩ := h
  cases key with
  | left => cases sel <;> exact ⟨h1, h2, h3, h4, h5, h6⟩
  | right => cases sel <;> exact ⟨h1, h2, h3, h4, h5, h6⟩
  | up =>
    cases sel with
    | BASE => exact ⟨h1, h2, h3, h4, h5, h6⟩
    | LOWER_ARM =>
        exact ⟨le_min (by simp only [rotationStep]; linarith) (by norm_num),
          min_le_right _ _, h3, h4, h5, h6⟩
    | UPPER_ARM =>
        exact ⟨h1, h2, le_min (by simp only [rotationStep]; linarith) (by norm_num),
          min_le_right _ _, h5, h6⟩
    | LAMPSHADE =>
        exact ⟨h1, h2, h3, h4, le_min (by simp only [rotationStep]; linarith) (by norm_num),
          min_le_right _ _⟩
  | down =>
    cases sel with
    | BASE => exact ⟨h1, h2, h3, h4, h5, h6⟩
    | LOWER_ARM =>
        exact ⟨le_max_right _ _,
          max_le (by simp only [rotationStep]; linarith) (by norm_num), h3, h4, h5, h6⟩
    | UPPER_ARM =>
        exact ⟨h1, h2, le_max_right _ _,
          max_le (by simp only [rotationStep]; linarith) (by norm_num), h5, h6⟩
    | LAMPSHADE =>
        exact ⟨h1, h2, h3, h4, le_max_right _ _,
          max_le (by simp only [rotationStep]; linarith) (by norm_num)⟩

lemma step_preserves_range (s : LampState) (e : InputEvent)
    (h : clampedAnglesInRange s.lampJoints) :
    clampedAnglesInRange ((step s e).lampJoints) := by
  cases e with
  | kb key => exact keyboard_preserves_range key s h
  | special key => exact specialKeys_preserves_range key s h

lemma run_preserves_range (events : List InputEvent) (s : LampState)
    (h : clampedAnglesInRange s.lampJoints) :
    clampedAnglesInRange ((run s events).lampJoints) := by
  induction events generalizing s with
  | nil => exact h
  | cons e rest ih => exact ih (step s e) (step_preserves_range s e h)

/-- C4: For every finite sequence of keyboard input events (joint selections,
directional adjustments, spotlight toggles, resets) applied from the program's
initial state, the reachable joint state always satisfies
lowerArmAngle ∈ [-10, 90], upperArmAngle ∈ [-120, 90] and
lampshadeAngle ∈ [-90, 45]. -/
theorem reachable_states_satisfy_clamp_ranges (events : List InputEvent) :
    clampedAnglesInRange (run initialState events).lampJoints :=
  run_preserves_range events initialState (by norm_num [initialState, defaultLampJoints, clampedAnglesInRange])

/-- C5 counterexample: the program's default pose (main.cpp line 45 and the
`r`-key reset) is `(0, 30, -60, -90, 0)`, not `(0, 45, -60, -30, 0)` as the
claim states — its lowerArmAngle is 30 and its lampshadeAngle is -90. -/
theorem default_pose_is_not_the_claimed_one :
    initialState.lampJoints ≠ (⟨0, 45, -60, -30, 0⟩ : LampJoints ℚ) := by
  intro h
  have := congrArg (fun j => j.lowerArmAngle) h
  norm_num [initialState, defaultLampJoints] at this

/-- C5 amended: starting from the program's actual default pose
`(0, 30, -60, -90, 0)`, issuing selectJoint(UpperArm) (`key 3`) followed by four
adjustJoint(increase) (`up` arrow) events yields upperArmAngle = -60 + 4·3 = -48,
with all other joint fields and the spotlight flag unchanged (the selected joint
is UpperArm, as the selection event itself demands). -/
theorem select_upper_arm_four_increases :
    run initialState
        [.kb .key3, .special .up, .special .up, .special .up, .special .up] =
      { initialState with
          lampJoints := { initialState.lampJoints with upperArmAngle := -48 }
          selectedJoint := .UPPER_ARM } := by
  simp only [run, List.foldl, step, keyboard, specialKeys, rotationStep,
    initialState, defaultLampJoints]
  norm_num [min_def]

lemma step_up_lower_arm (s : LampState) (hsel : s.selectedJoint = .LOWER_ARM) :
    step s (.special .up) =
      { s with lampJoints :=
          { s.lampJoints with
              lowerArmAngle := min (s.lampJoints.lowerArmAngle + 3) 90 } } := by
  rcases s with ⟨⟨b, la, ua, sa, sr⟩, sel, sp⟩
  cases hsel
  rfl

lemma iterate_up_lower_arm (s : LampState) (hsel : s.selectedJoint = .LOWER_ARM)
    (hle : s.lampJoints.lowerArmAngle ≤ 90) (m : ℕ) :
    ((fun t => step t (.special .up))^[m] s).selectedJoint = .LOWER_ARM ∧
    ((fun t => step t (.special .up))^[m] s).lampJoints.lowerArmAngle =
      min (s.lampJoints.lowerArmAngle + 3 * (m : ℚ)) 90 := by
  induction m with
  | zero =>
    refine ⟨hsel, ?_⟩
    simp [min_eq_left hle]
  | succ m ih =>
    obtain ⟨ihsel, ihval⟩ := ih
    rw [Function.iterate_succ_apply']
    rw [step_up_lower_arm _ ihsel]
    refine ⟨ihsel, ?_⟩
    simp only [ihval]
    rcases le_total (s.lampJoints.lowerArmAngle + 3 * (m : ℚ)) 90 with h | h
    · rw [min_eq_left h]
      push_cast
      ring_nf
    · rw [min_eq_right h, min_eq_right (by norm_num : (90 : ℚ) ≤ 90 + 3),
        min_eq_right (by push_cast; linarith)]

/-- C6: with LowerArm selected, from every starting lowerArmAngle strictly below
90° the repeated adjustJoint(increase) sequence (add 3° then clamp with fmin)
reaches exactly 90° after finitely many steps and stays at 90° for every further
increase; moreover a state whose lowerArmAngle is already 90° is a strict no-op
fixed point of the increase event. -/
theorem lower_arm_increase_converges_to_90 (s : LampState)
    (hsel : s.selectedJoint = .LOWER_ARM)
    (hlt : s.lampJoints.lowerArmAngle < 90) :
    (∃ n : ℕ, ∀ m : ℕ, n ≤ m →
      ((fun t => step t (.special .up))^[m] s).lampJoints.lowerArmAngle = 90) ∧
    ∀ t : LampState, t.selectedJoint = .LOWER_ARM →
      t.lampJoints.lowerArmAngle = 90 → step t (.special .up) = t := by
  constructor
  · obtain ⟨n, hn⟩ := exists_nat_ge ((90 - s.lampJoints.lowerArmAngle) / 3)
    refine ⟨n, fun m hm => ?_⟩
    rw [(iterate_up_lower_arm s hsel hlt.le m).2]
    have hcast : (n : ℚ) ≤ (m : ℚ) := Nat.cast_le.mpr hm
    have hmul : 90 - s.lampJoints.lowerArmAngle ≤ (n : ℚ) * 3 :=
      (div_le_iff₀ (by norm_num : (0 : ℚ) < 3)).mp hn
    exact min_eq_right (by linarith)
  · intro t htsel ht90
    rw [step_up_lower_arm t htsel, ht90]
    rcases t with ⟨⟨b, la, ua, sa, sr⟩, sel, sp⟩
    simp_all

/-- C6 witness: the convergence theorem applied at the concrete state obtained
by selecting the lower arm in the initial state (lowerArmAngle = 30 < 90). -/
theorem lower_arm_increase_converges_to_90_witness :
    ((step initialState (.kb .key2)).selectedJoint = .LOWER_ARM ∧
      (step initialState (.kb .key2)).lampJoints.lowerArmAngle < 90) ∧
    ((∃ n : ℕ, ∀ m : ℕ, n ≤ m →
      ((fun t => step t (.special .up))^[m]
          (step initialState (.kb .key2))).lampJoints.lowerArmAngle = 90) ∧
    ∀ t : LampState, t.selectedJoint = .LOWER_ARM →
      t.lampJoints.lowerArmAngle = 90 → step t (.special .up) = t) :=
  ⟨⟨rfl, by norm_num [step, keyboard, initialState, defaultLampJoints]⟩,
    lower_arm_increase_converges_to_90 (step initialState (.kb .key2)) rfl
      (by norm_num [step, keyboard, initialState, defaultLampJoints])⟩

/-- C9: a directional event on the axis the selected joint does not handle is a
complete no-op: up/down with Base selected, and left/right with LowerArm or
UpperArm selected, leave the entire program state (all joint fields, the
selection, and the spotlight flag) unchanged. -/
theorem off_axis_arrow_events_are_noops (s : LampState) :
    step { s with selectedJoint := .BASE } (.special .up) =
        { s with selectedJoint := .BASE } ∧
    step { s with selectedJoint := .BASE } (.special .down) =
        { s with selectedJoint := .BASE } ∧
    step { s with selectedJoint := .LOWER_ARM } (.special .left) =
        { s with selectedJoint := .LOWER_ARM } ∧
    step { s with selectedJoint := .LOWER_ARM } (.special .right) =
        { s with selectedJoint := .LOWER_ARM } ∧
    step { s with selectedJoint := .UPPER_ARM } (.special .left) =
        { s with selectedJoint := .UPPER_ARM } ∧
    step { s with selectedJoint := .UPPER_ARM } (.special .right) =
        { s with selectedJoint := .UPPER_ARM } := by
  exact ⟨rfl, rfl, rfl, rfl, rfl, rfl⟩

/-! ## Kinematic chain (main.cpp lines 54-61, 130-184, 610-689, 526-559)

`glRotatef`/`glTranslatef` post-multiply the current modelview matrix
(column-vector convention).  `setupLighting` starts from `glLoadIdentity`, so
the spotlight pose is computed in world space; `modelview[12..14]` is the
fourth column of the composed matrix and `modelview[8..10]` its third column. -/

open Real in
/-- Cosine of an angle given in degrees, as `glRotatef` takes degrees. -/
noncomputable def cosd (a : ℝ) : ℝ := Real.cos (a * π / 180)

open Real in
/-- Sine of an angle given in degrees. -/
noncomputable def sind (a : ℝ) : ℝ := Real.sin (a * π / 180)

/-- The matrix of `glRotatef(a, 1, 0, 0)`. -/
noncomputable def rotXd (a : ℝ) : Matrix (Fin 4) (Fin 4) ℝ :=
  !![1, 0, 0, 0;
     0, cosd a, -sind a, 0;
     0, sind a, cosd a, 0;
     0, 0, 0, 1]

/-- The matrix of `glRotatef(a, 0, 1, 0)`. -/
noncomputable def rotYd (a : ℝ) : Matrix (Fin 4) (Fin 4) ℝ :=
  !![cosd a, 0, sind a, 0;
     0, 1, 0, 0;
     -sind a, 0, cosd a, 0;
     0, 0, 0, 1]

/-- The matrix of `glTranslatef(x, y, z)`. -/
noncomputable def transM (x y z : ℝ) : Matrix (Fin 4) (Fin 4) ℝ :=
  !![1, 0, 0, x;
     0, 1, 0, y;
     0, 0, 1, z;
     0, 0, 0, 1]

/-- Lamp physical dimensions (main.cpp lines 55-61). -/
noncomputable def BASE_RADIUS : ℝ := 1
noncomputable def BASE_HEIGHT : ℝ := 0.3
noncomputable def ARM_RADIUS : ℝ := 0.15
noncomputable def LOWER_ARM_LENGTH : ℝ := 3
noncomputable def UPPER_ARM_LENGTH : ℝ := 2.5
noncomputable def LAMPSHADE_RADIUS : ℝ := 0.8
noncomputable def LAMPSHADE_HEIGHT : ℝ := 1.2

/-- One modelview-matrix call of the transformation hierarchy. -/
inductive GLOp
  | rotateX (angle : ℝ)
  | rotateY (angle : ℝ)
  | translate (x y z : ℝ)

/-- The matrix a single call post-multiplies onto the current modelview matrix. -/
noncomputable def opMatrix : GLOp → Matrix (Fin 4) (Fin 4) ℝ
  | .rotateX a => rotXd a
  | .rotateY a => rotYd a
  | .translate x y z => transM x y z

/-- Apply a sequence of matrix calls to the current modelview matrix; each call
post-multiplies, as OpenGL does. -/
noncomputable def applyOps (m : Matrix (Fin 4) (Fin 4) ℝ) :
    List GLOp → Matrix (Fin 4) (Fin 4) ℝ
  | [] => m
  | op :: rest => applyOps (m * opMatrix op) rest

/-- The matrix calls issued by `setupLighting` (main.cpp lines 140-156) between
`glLoadIdentity` and the `glGetFloatv` read-back. -/
noncomputable def spotlightOps (j : LampJoints ℝ) : List GLOp :=
  [ .rotateY j.baseRotation,
    .translate 0 BASE_HEIGHT 0,
    .rotateX j.lowerArmAngle,
    .translate 0 LOWER_ARM_LENGTH 0,
    .rotateX j.upperArmAngle,
    .translate 0 UPPER_ARM_LENGTH 0,
    .rotateX j.lampshadeAngle,
    .rotateY j.lampshadeRotation,
    .translate 0 (ARM_RADIUS * 1.5) 0,
    .rotateX (-90),
    .translate 0 0 (LAMPSHADE_HEIGHT * 0.6) ]

/-- The modelview matrix read back by `setupLighting` (main.cpp line 160),
starting from `glLoadIdentity` (line 136). -/
noncomputable def emitterMatrix (j : LampJoints ℝ) : Matrix (Fin 4) (Fin 4) ℝ :=
  applyOps 1 (spotlightOps j)

/-- `spotPosition = {modelview[12], modelview[13], modelview[14]}`
(main.cpp line 163): the translation component, i.e. the fourth column. -/
noncomputable def spotPosition (j : LampJoints ℝ) : Fin 3 → ℝ :=
  ![emitterMatrix j 0 3, emitterMatrix j 1 3, emitterMatrix j 2 3]

/-- `spotDirection = {modelview[8], modelview[9], modelview[10]}`
(main.cpp line 167): the transformed Z axis, i.e. the third column. -/
noncomputable def spotDirection (j : LampJoints ℝ) : Fin 3 → ℝ :=
  ![emitterMatrix j 0 2, emitterMatrix j 1 2, emitterMatrix j 2 2]

/-- The matrix calls applied to world space by `display` (main.cpp lines
630-686) and `drawLampshade` (lines 539-541) before the lampshade cone is
drawn: the lampshade's local frame. -/
noncomputable def lampshadeOps (j : LampJoints ℝ) : List GLOp :=
  [ .rotateY j.baseRotation,
    .translate 0 BASE_HEIGHT 0,
    .rotateX j.lowerArmAngle,
    .translate 0 LOWER_ARM_LENGTH 0,
    .rotateX j.upperArmAngle,
    .translate 0 UPPER_ARM_LENGTH 0,
    .rotateX j.lampshadeAngle,
    .rotateY j.lampshadeRotation,
    .translate 0 (ARM_RADIUS * 1.5) 0,
    .rotateX (-90) ]

/-- World transform of the lampshade's local drawing frame. -/
noncomputable def lampshadeFrameMatrix (j : LampJoints ℝ) : Matrix (Fin 4) (Fin 4) ℝ :=
  applyOps 1 (lampshadeOps j)

/-- World-space origin of the lampshade's local frame (fourth column of its
frame matrix). -/
noncomputable def lampshadeFrameOrigin (j : LampJoints ℝ) : Fin 3 → ℝ :=
  ![lampshadeFrameMatrix j 0 3, lampshadeFrameMatrix j 1 3, lampshadeFrameMatrix j 2 3]

/-- The earlier revision's trigonometric shortcut for the spotlight direction
(src/README.md lines 353-362): only the summed X angles and the base Y angle. -/
noncomputable def oldSpotDirection (j : LampJoints ℝ) : Fin 3 → ℝ :=
  let totalAngleX := j.lowerArmAngle + j.upperArmAngle + j.lampshadeAngle
  ![sind j.baseRotation * cosd totalAngleX,
    -sind totalAngleX,
    cosd j.baseRotation * cosd totalAngleX]

/-- Transcription of the spec's sentence for C1: the strict left-to-right
composition rotate-by-baseRotation, translate-up-base-height,
rotate-lowerArmAngle, translate-lower-arm-length, rotate-upperArmAngle,
translate-upper-arm-length, rotate-lampshadeAngle, rotate-lampshadeRotation
about local up, translate past the joint-sphere radius, rotate -90° about the
lateral axis, translate 60% of the lampshade height along the shade axis. -/
noncomputable def specChainMatrix (j : LampJoints ℝ) : Matrix (Fin 4) (Fin 4) ℝ :=
  rotYd j.baseRotation * transM 0 BASE_HEIGHT 0 *
    rotXd j.lowerArmAngle * transM 0 LOWER_ARM_LENGTH 0 *
    rotXd j.upperArmAngle * transM 0 UPPER_ARM_LENGTH 0 *
    rotXd j.lampshadeAngle * rotYd j.lampshadeRotation *
    transM 0 (ARM_RADIUS * 1.5) 0 * rotXd (-90) *
    transM 0 0 (LAMPSHADE_HEIGHT * 0.6)

/-- The declared clamp ranges, over the reals used by the kinematic chain. -/
def validJointConfig (j : LampJoints ℝ) : Prop :=
  -10 ≤ j.lowerArmAngle ∧ j.lowerArmAngle ≤ 90 ∧
  -120 ≤ j.upperArmAngle ∧ j.upperArmAngle ≤ 90 ∧
  -90 ≤ j.lampshadeAngle ∧ j.lampshadeAngle ≤ 45

/-- C1: for every joint state the spotlight modelview matrix read back by
`setupLighting` is exactly the strict left-to-right composition of the eleven
rotate/translate steps, `spotPosition` is the fourth (translation) column of
that composed matrix, and `spotDirection` is its third (transformed Z) column. -/
theorem spotlight_chain_is_left_to_right_composition (j : LampJoints ℝ) :
    emitterMatrix j = specChainMatrix j ∧
    spotPosition j =
      ![specChainMatrix j 0 3, specChainMatrix j 1 3, specChainMatrix j 2 3] ∧
    spotDirection j =
      ![specChainMatrix j 0 2, specChainMatrix j 1 2, specChainMatrix j 2 2] := by
  have hmat : emitterMatrix j = specChainMatrix j := by
    simp only [emitterMatrix, spotlightOps, applyOps, opMatrix, specChainMatrix, one_mul]
  exact ⟨hmat, by rw [spotPosition, hmat], by rw [spotDirection, hmat]⟩

lemma cosd_zero : cosd 0 = 1 := by simp [cosd]

lemma sind_zero : sind 0 = 0 := by simp [sind]

open Real in
lemma cosd_neg90 : cosd (-90) = 0 := by
  rw [cosd, show (-90 : ℝ) * π / 180 = -(π / 2) by ring, Real.cos_neg, Real.cos_pi_div_two]

open Real in
lemma sind_neg90 : sind (-90) = -1 := by
  rw [sind, show (-90 : ℝ) * π / 180 = -(π / 2) by ring, Real.sin_neg, Real.sin_pi_div_two]

open Real in
lemma cosd_90 : cosd 90 = 0 := by
  rw [cosd, show (90 : ℝ) * π / 180 = π / 2 by ring, Real.cos_pi_div_two]

open Real in
lemma sind_90 : sind 90 = 1 := by
  rw [sind, show (90 : ℝ) * π / 180 = π / 2 by ring, Real.sin_pi_div_two]

/-- Product of two affine matrices (last row `0 0 0 1`), entrywise.  Every
matrix in the modelview chain has this shape, so chains of products collapse
by repeated rewriting with this lemma. -/
lemma aff_mul_aff (a b c tx d e f ty g h i tz a' b' c' tx' d' e' f' ty' g' h' i' tz' : ℝ) :
    (!![a, b, c, tx; d, e, f, ty; g, h, i, tz; 0, 0, 0, 1]) *
      (!![a', b', c', tx'; d', e', f', ty'; g', h', i', tz'; 0, 0, 0, 1]) =
    !![a*a' + b*d' + c*g', a*b' + b*e' + c*h', a*c' + b*f' + c*i', a*tx' + b*ty' + c*tz' + tx;
       d*a' + e*d' + f*g', d*b' + e*e' + f*h', d*c' + e*f' + f*i', d*tx' + e*ty' + f*tz' + ty;
       g*a' + h*d' + i*g', g*b' + h*e' + i*h', g*c' + h*f' + i*i', g*tx' + h*ty' + i*tz' + tz;
       0, 0, 0, 1] := by
  ext k l
  fin_cases k <;> fin_cases l <;>
    simp [Matrix.mul_apply, Fin.sum_univ_four, Matrix.vecHead, Matrix.vecTail]

/-- All-zero joint configuration; lies inside every declared clamp range. -/
noncomputable def jZero : LampJoints ℝ := ⟨0, 0, 0, 0, 0⟩

/-- Joint configuration with a non-trivial lampshade spin of 90° and all other
angles zero; lies inside every declared clamp range. -/
noncomputable def jSpin : LampJoints ℝ := ⟨0, 0, 0, 0, 90⟩

lemma emitterMatrix_jZero :
    emitterMatrix jZero =
      !![1, 0, 0, 0;
         0, 0, 1, 6.745;
         0, -1, 0, 0;
         0, 0, 0, 1] := by
  simp only [emitterMatrix, spotlightOps, applyOps, opMatrix, jZero, one_mul,
    BASE_HEIGHT, LOWER_ARM_LENGTH, UPPER_ARM_LENGTH, ARM_RADIUS, LAMPSHADE_HEIGHT,
    rotXd, rotYd, transM, cosd_zero, sind_zero, cosd_neg90, sind_neg90]
  norm_num [aff_mul_aff]

lemma lampshadeFrameMatrix_jZero :
    lampshadeFrameMatrix jZero =
      !![1, 0, 0, 0;
         0, 0, 1, 6.025;
         0, -1, 0, 0;
         0, 0, 0, 1] := by
  simp only [lampshadeFrameMatrix, lampshadeOps, applyOps, opMatrix, jZero, one_mul,
    BASE_HEIGHT, LOWER_ARM_LENGTH, UPPER_ARM_LENGTH, ARM_RADIUS,
    rotXd, rotYd, transM, cosd_zero, sind_zero, cosd_neg90, sind_neg90]
  norm_num [aff_mul_aff]

lemma emitterMatrix_jSpin :
    emitterMatrix jSpin =
      !![0, -1, 0, 0;
         0, 0, 1, 6.745;
         -1, 0, 0, 0;
         0, 0, 0, 1] := by
  simp only [emitterMatrix, spotlightOps, applyOps, opMatrix, jSpin, one_mul,
    BASE_HEIGHT, LOWER_ARM_LENGTH, UPPER_ARM_LENGTH, ARM_RADIUS, LAMPSHADE_HEIGHT,
    rotXd, rotYd, transM, cosd_zero, sind_zero, cosd_neg90, sind_neg90, cosd_90, sind_90]
  norm_num [aff_mul_aff]

/-- C2 counterexample: at the valid all-zero configuration the spotlight
position is `(0, 6.745, 0)` while the world-space origin of the lampshade's
local frame is `(0, 6.025, 0)` — they differ by 0.72 (the 60%-depth offset
into the shade), far beyond the claimed 1e-4 tolerance. -/
theorem emitter_not_colocated_with_shade_origin :
    validJointConfig jZero ∧
    ¬ ∀ k : Fin 3, |spotPosition jZero k - lampshadeFrameOrigin jZero k| ≤ 1e-4 := by
  refine ⟨by norm_num [validJointConfig, jZero], fun h => ?_⟩
  have h1 := h 1
  simp only [spotPosition, lampshadeFrameOrigin] at h1
  rw [emitterMatrix_jZero, lampshadeFrameMatrix_jZero, abs_le] at h1
  have h2 := h1.2
  norm_num [Matrix.vecHead, Matrix.vecTail] at h2

/-- C2 amended: for every valid joint configuration the spotlight position is
not the lampshade frame origin but the world-space image of the emitter point
sitting 60% of the shade height along the shade axis of that frame: the
spotlight modelview matrix is exactly the lampshade frame matrix
post-multiplied by the 60%-depth translation, and `spotPosition` is the fourth
column of that product (the equality is exact, with no tolerance needed). -/
theorem emitter_is_shade_frame_at_60pct_depth (j : LampJoints ℝ)
    (h : validJointConfig j) :
    emitterMatrix j = lampshadeFrameMatrix j * transM 0 0 (LAMPSHADE_HEIGHT * 0.6) ∧
    spotPosition j =
      ![(lampshadeFrameMatrix j * transM 0 0 (LAMPSHADE_HEIGHT * 0.6)) 0 3,
        (lampshadeFrameMatrix j * transM 0 0 (LAMPSHADE_HEIGHT * 0.6)) 1 3,
        (lampshadeFrameMatrix j * transM 0 0 (LAMPSHADE_HEIGHT * 0.6)) 2 3] := by
  have hmat : emitterMatrix j = lampshadeFrameMatrix j * transM 0 0 (LAMPSHADE_HEIGHT * 0.6) := by
    simp only [emitterMatrix, lampshadeFrameMatrix, spotlightOps, lampshadeOps,
      applyOps, opMatrix]
  exact ⟨hmat, by rw [spotPosition, hmat]⟩

/-- C2 amended witness: the 60%-depth relation applied at the valid all-zero
configuration. -/
theorem emitter_is_shade_frame_at_60pct_depth_witness :
    validJointConfig jZero ∧
    (emitterMatrix jZero = lampshadeFrameMatrix jZero * transM 0 0 (LAMPSHADE_HEIGHT * 0.6) ∧
    spotPosition jZero =
      ![(lampshadeFrameMatrix jZero * transM 0 0 (LAMPSHADE_HEIGHT * 0.6)) 0 3,
        (lampshadeFrameMatrix jZero * transM 0 0 (LAMPSHADE_HEIGHT * 0.6)) 1 3,
        (lampshadeFrameMatrix jZero * transM 0 0 (LAMPSHADE_HEIGHT * 0.6)) 2 3]) :=
  ⟨by norm_num [validJointConfig, jZero],
    emitter_is_shade_frame_at_60pct_depth jZero (by norm_num [validJointConfig, jZero])⟩

/-- C3: the earlier revision's trigonometric shortcut and the current
transform-matrix extraction disagree: at the configuration with
lampshadeRotation = 90° (all other angles zero) the shortcut yields (0, 0, 1)
while the matrix's third column yields (0, 1, 0). -/
theorem old_and_new_direction_derivations_disagree :
    jSpin.lampshadeRotation ≠ 0 ∧ oldSpotDirection jSpin ≠ spotDirection jSpin := by
  refine ⟨by norm_num [jSpin], fun h => ?_⟩
  have h1 := congrFun h 1
  simp only [spotDirection] at h1
  rw [emitterMatrix_jSpin] at h1
  simp only [oldSpotDirection] at h1
  norm_num [jSpin, sind_zero, Matrix.vecHead, Matrix.vecTail] at h1

/-! ## Procedural geometry (main.cpp lines 230-253, 263-289, 304-346, 355-395) -/

/-- One vertex as emitted between `glBegin`/`glEnd`: the normal current at
emission time (set by the latest `glNormal3f`) paired with the `glVertex3f`
position. -/
structure GLVertex where
  normal : Fin 3 → ℝ
  position : Fin 3 → ℝ

open Real in
/-- `drawCylinder` (main.cpp lines 230-253): one quad strip; for each
`i in 0..slices` one normal and the bottom and top vertices at angle
`θ = 2π·i/slices`. -/
noncomputable def drawCylinder (radius height : ℝ) (slices : ℕ) : List GLVertex :=
  (List.range (slices + 1)).flatMap fun (i : ℕ) =>
    let theta := 2 * π * (i : ℝ) / (slices : ℝ)
    let cosTheta := Real.cos theta
    let sinTheta := Real.sin theta
    [ { normal := ![cosTheta, sinTheta, 0],
        position := ![radius * cosTheta, radius * sinTheta, 0] },
      { normal := ![cosTheta, sinTheta, 0],
        position := ![radius * cosTheta, radius * sinTheta, height] } ]

open Real in
/-- `drawCone` (main.cpp lines 263-289).  The normal components divide
`radiusDiff` and `height` by `sqrt(radiusDiff² + height²)`; when that
denominator is zero (IEEE: 0/0 = NaN normals) the result is modelled as
`none`.  The source has no special case for this. -/
noncomputable def drawCone (baseRadius topRadius height : ℝ) (slices : ℕ) :
    Option (List GLVertex) :=
  let radiusDiff := baseRadius - topRadius
  if Real.sqrt (radiusDiff * radiusDiff + height * height) = 0 then none
  else
    let normalZ := radiusDiff / Real.sqrt (radiusDiff * radiusDiff + height * height)
    let normalXY := height / Real.sqrt (radiusDiff * radiusDiff + height * height)
    some ((List.range (slices + 1)).flatMap fun (i : ℕ) =>
      let theta := 2 * π * (i : ℝ) / (slices : ℝ)
      let cosTheta := Real.cos theta
      let sinTheta := Real.sin theta
      [ { normal := ![normalXY * cosTheta, normalXY * sinTheta, normalZ],
          position := ![baseRadius * cosTheta, baseRadius * sinTheta, 0] },
        { normal := ![normalXY * cosTheta, normalXY * sinTheta, normalZ],
          position := ![topRadius * cosTheta, topRadius * sinTheta, height] } ])

open Real in
/-- `drawSphere` (main.cpp lines 304-346): one quad strip per stack band; for
each longitude `j in 0..slices` the two vertices at latitudes `θ1` and `θ2`,
each with its radial normal.  (The source parameter name `stacks` is a
reserved token in this Lean environment, so it is rendered `stackCount`.) -/
noncomputable def drawSphere (radius : ℝ) (slices stackCount : ℕ) : List (List GLVertex) :=
  (List.range stackCount).map fun (i : ℕ) =>
    let theta1 := π * (i : ℝ) / (stackCount : ℝ)
    let theta2 := π * ((i : ℝ) + 1) / (stackCount : ℝ)
    let sinTheta1 := Real.sin theta1
    let cosTheta1 := Real.cos theta1
    let sinTheta2 := Real.sin theta2
    let cosTheta2 := Real.cos theta2
    (List.range (slices + 1)).flatMap fun (j : ℕ) =>
      let phi := 2 * π * (j : ℝ) / (slices : ℝ)
      let cosPhi := Real.cos phi
      let sinPhi := Real.sin phi
      [ { normal := ![cosPhi * sinTheta1, sinPhi * sinTheta1, cosTheta1],
          position := ![radius * cosPhi * sinTheta1, radius * sinPhi * sinTheta1,
            radius * cosTheta1] },
        { normal := ![cosPhi * sinTheta2, sinPhi * sinTheta2, cosTheta2],
          position := ![radius * cosPhi * sinTheta2, radius * sinPhi * sinTheta2,
            radius * cosTheta2] } ]

/-- `drawWireCube` (main.cpp lines 355-395): the 24 `glVertex3fv` calls of the
12 edges under `GL_LINES` (no normals: drawn unlit). -/
noncomputable def drawWireCube (size : ℝ) : List (Fin 3 → ℝ) :=
  let half := size / 2
  let v0 : Fin 3 → ℝ := ![-half, -half, half]
  let v1 : Fin 3 → ℝ := ![half, -half, half]
  let v2 : Fin 3 → ℝ := ![half, half, half]
  let v3 : Fin 3 → ℝ := ![-half, half, half]
  let v4 : Fin 3 → ℝ := ![-half, -half, -half]
  let v5 : Fin 3 → ℝ := ![half, -half, -half]
  let v6 : Fin 3 → ℝ := ![half, half, -half]
  let v7 : Fin 3 → ℝ := ![-half, half, -half]
  [ v0, v1, v1, v2, v2, v3, v3, v0,
    v4, v5, v5, v6, v6, v7, v7, v4,
    v0, v4, v1, v5, v2, v6, v3, v7 ]

lemma length_flatMap_two {α β : Type} (l : List α) (f : α → List β)
    (hf : ∀ a, (f a).length = 2) : (l.flatMap f).length = 2 * l.length := by
  induction l with
  | nil => rfl
  | cons a t ih =>
    simp only [List.flatMap_cons, List.length_append, ih, hf, List.length_cons]
    ring

/-- C7 counterexample: at `baseRadius = topRadius = 1` and `height = 0` the
cone normal computation divides 0 by `sqrt(0) = 0` (IEEE NaN); the degenerate
cone is not special-cased or rejected by `drawCone`. -/
theorem degenerate_cone_normals_divide_by_zero :
    drawCone 1 1 0 32 = none := by
  simp [drawCone, Real.sqrt_eq_zero']

/-- C7 amended: `drawCone` does not special-case the degenerate cone; the
normal computation divides by zero (NaN normals) exactly when
`baseRadius = topRadius` and `height = 0` simultaneously, and for every other
parameter combination the emitted normals are well-defined (the denominator
`sqrt(radiusDiff² + height²)` is non-zero). -/
theorem cone_normals_welldefined_unless_degenerate
    (baseRadius topRadius height : ℝ) (slices : ℕ)
    (h : baseRadius ≠ topRadius ∨ height ≠ 0) :
    (drawCone baseRadius topRadius height slices).isSome := by
  have harg : 0 < (baseRadius - topRadius) * (baseRadius - topRadius) + height * height := by
    rcases h with h | h
    · have hd : baseRadius - topRadius ≠ 0 := sub_ne_zero.mpr h
      nlinarith [mul_self_pos.mpr hd, mul_self_nonneg height]
    · nlinarith [mul_self_pos.mpr h, mul_self_nonneg (baseRadius - topRadius)]
  have hsqrt :
      Real.sqrt ((baseRadius - topRadius) * (baseRadius - topRadius) + height * height) ≠ 0 :=
    ne_of_gt (Real.sqrt_pos.mpr harg)
  simp [drawCone, hsqrt]

/-- C7 amended witness: the well-definedness theorem at the parameters the
program actually uses for the lampshade cone
(`drawCone(0.8·0.4, 0.8, 1.2, 32)`, main.cpp line 544). -/
theorem cone_normals_welldefined_unless_degenerate_witness :
    ((0.8 * 0.4 : ℝ) ≠ 0.8 ∨ (1.2 : ℝ) ≠ 0) ∧
    (drawCone (0.8 * 0.4) 0.8 1.2 32).isSome :=
  ⟨Or.inl (by norm_num),
    cone_normals_welldefined_unless_degenerate (0.8 * 0.4) 0.8 1.2 32 (Or.inl (by norm_num))⟩

/-- C8: for positive parameters `drawCylinder` emits exactly `2·(slices+1)`
vertices in its single quad strip, `drawSphere` emits exactly `stacks` quad
strips of `2·(slices+1)` vertices each, and `drawWireCube` emits exactly 24
line vertices (12 edges × 2). -/
theorem geometry_vertex_counts (radius height size : ℝ) (slices stackCount : ℕ)
    (hradius : 0 < radius) (hheight : 0 < height) (hsize : 0 < size)
    (hslices : 0 < slices) (hstacks : 0 < stackCount) :
    (drawCylinder radius height slices).length = 2 * (slices + 1) ∧
    (drawSphere radius slices stackCount).length = stackCount ∧
    (∀ strip ∈ drawSphere radius slices stackCount, strip.length = 2 * (slices + 1)) ∧
    (drawWireCube size).length = 24 := by
  refine ⟨?_, ?_, ?_, rfl⟩
  · rw [drawCylinder, length_flatMap_two, List.length_range]
    exact fun a => rfl
  · rw [drawSphere, List.length_map, List.length_range]
  · intro strip hstrip
    rw [drawSphere] at hstrip
    obtain ⟨i, hi, rfl⟩ := List.mem_map.mp hstrip
    rw [length_flatMap_two, List.length_range]
    exact fun a => rfl

/-- C8 witness: the vertex-count theorem at the cylinder, sphere and wire-cube
parameters used for the lamp base and joints (radius 1, height 0.3, size 2.2,
32 slices, 16 stacks). -/
theorem geometry_vertex_counts_witness :
    ((0 : ℝ) < 1 ∧ (0 : ℝ) < 0.3 ∧ (0 : ℝ) < 2.2 ∧ 0 < 32 ∧ 0 < 16) ∧
    ((drawCylinder 1 0.3 32).length = 2 * (32 + 1) ∧
    (drawSphere 1 32 16).length = 16 ∧
    (∀ strip ∈ drawSphere 1 32 16, strip.length = 2 * (32 + 1)) ∧
    (drawWireCube 2.2).length = 24) :=
  ⟨⟨by norm_num, by norm_num, by norm_num, by norm_num, by norm_num⟩,
    geometry_vertex_counts 1 0.3 2.2 32 16 (by norm_num) (by norm_num) (by norm_num)
      (by norm_num) (by norm_num)⟩

/-- C10: toggling the spotlight (`f` key) flips only the spotlightEnabled flag,
leaving every joint field and the joint selection unchanged, and applying it
twice restores the original state exactly. -/
theorem toggle_spotlight_involution (s : LampState) :
    step s (.kb .keyF) = { s with spotlightEnabled := !s.spotlightEnabled } ∧
    step (step s (.kb .keyF)) (.kb .keyF) = s := by
  refine ⟨rfl, ?_⟩
  rcases s with ⟨j, sel, sp⟩
  simp [step, keyboard]

end PixarLamp
